import Mathlib

/-!
Verification of the `test-empty-master` CosmWasm contract (`src/contract.rs`).

The contract persists a single `State { count: i32, owner: Addr }` record,
exposes `instantiate` / `execute` (Increment, DeploySlave) / `query` (GetCount)
entry points, and a `reply` entry point that correlates the instantiate
sub-message callback and extracts the child contract address from the event
list.

The shallow embedding below translates the Rust source into Lean:
pure state passing over an explicit `Storage`, `i32` arithmetic as `Int`
with explicit range checks, fallible code as `Except` / a three-way
invocation result (ok / typed error / trap).
-/

namespace Contract

/-- A key/value attribute of an event (`cosmwasm_std::Attribute`). -/
structure Attribute where
  key : String
  value : String
deriving DecidableEq, Repr

/-- An event of a sub-message response (`cosmwasm_std::Event`):
a type tag `ty` plus an ordered attribute list. -/
structure Event where
  ty : String
  attributes : List Attribute
deriving DecidableEq, Repr

/-- A coin (`cosmwasm_std::Coin`); only ever used as the empty funds list here. -/
structure Coin where
  denom : String
  amount : Nat
deriving DecidableEq, Repr

/-- `cosmwasm_std::SubMsgResponse`: the events (and optional data) returned
for a successful sub-message.  `data` is a raw binary payload, modelled as a
string; the contract never reads it. -/
structure SubMsgResponse where
  events : List Event
  data : Option String
deriving DecidableEq, Repr

/-- `cosmwasm_std::SubMsgResult`: success with a response, or failure with an
error message string. -/
inductive SubMsgResult where
  | ok (response : SubMsgResponse)
  | err (error : String)
deriving DecidableEq, Repr

/-- `cosmwasm_std::Reply`: the callback delivered for a sub-message, carrying
the correlation id (`u64`, modelled as `Nat`) and the outcome. -/
structure Reply where
  id : Nat
  result : SubMsgResult
deriving DecidableEq, Repr

/-- `msg.rs` (declared by use in `contract.rs`): instantiate payload `{ count: i32 }`. -/
structure InstantiateMsg where
  count : Int
deriving DecidableEq, Repr

/-- `msg.rs` (declared by use in `contract.rs`): the payload forwarded to the
slave contract's initializer, `{ count: i32 }`. -/
structure SlaveInstantiateMsg where
  count : Int
deriving DecidableEq, Repr

/-- `msg.rs` (declared by use in `contract.rs`): execute messages. -/
inductive ExecuteMsg where
  | increment
  | deploySlave (count : Int)
deriving DecidableEq, Repr

/-- `msg.rs` (declared by use in `contract.rs`): query messages. -/
inductive QueryMsg where
  | getCount
deriving DecidableEq, Repr

/-- `msg.rs` (declared by use in `contract.rs`): query response `{ count: i32 }`. -/
structure CountResponse where
  count : Int
deriving DecidableEq, Repr

/-- `state.rs` (declared by use in `contract.rs`): the persisted record
`State { count: i32, owner: Addr }`.  Addresses are opaque strings. -/
structure State where
  count : Int
  owner : String
deriving DecidableEq, Repr

/-- `cw2::ContractVersion`: the name/version pair stored by
`set_contract_version`. -/
structure ContractVersion where
  contract : String
  version : String
deriving DecidableEq, Repr

/-- The contract's persistent storage: the `STATE` item (a single keyed
record, absent before `instantiate`) and the cw2 `contract_info` item. -/
structure Storage where
  state : Option State
  contract_info : Option ContractVersion
deriving DecidableEq, Repr

/-- `cosmwasm_std::StdError`; only the variants this contract can produce. -/
inductive StdError where
  | genericErr (msg : String)
  | notFound (kind : String)
deriving DecidableEq, Repr

/-- `error.rs` `ContractError` (declared by use in `contract.rs`): the only
variant exercised by this contract is the `From<StdError>` conversion. -/
inductive ContractError where
  | std (e : StdError)
deriving DecidableEq, Repr

/-- Outcome of one execute-family invocation: success, a typed contract
error, or a wasm trap (Rust overflow-check abort), which discards all state
changes of the invocation. -/
inductive InvocationResult (α : Type) where
  | ok (value : α)
  | err (error : ContractError)
  | trap
deriving DecidableEq, Repr

/-- `cosmwasm_std::ReplyOn`. -/
inductive ReplyOn where
  | always
  | success
  | error
  | never
deriving DecidableEq, Repr

/-- `cosmwasm_std::CosmosMsg`; the only variant the contract builds is
`Wasm(WasmMsg::Instantiate { .. })`.  The serialized `msg` binary is
modelled as its JSON text. -/
inductive CosmosMsg where
  | wasmInstantiate (admin : Option String) (code_id : Nat) (msg : String)
      (funds : List Coin) (label : String)
deriving DecidableEq, Repr

/-- `cosmwasm_std::SubMsg`. -/
structure SubMsg where
  id : Nat
  msg : CosmosMsg
  gas_limit : Option Nat
  reply_on : ReplyOn
deriving DecidableEq, Repr

/-- `SubMsg::reply_always(msg, id)`. -/
def SubMsg.reply_always (msg : CosmosMsg) (id : Nat) : SubMsg :=
  SubMsg.mk id msg none ReplyOn.always

/-- `cosmwasm_std::Response`; the contract only touches `messages` and
`attributes`. -/
structure Response where
  messages : List SubMsg
  attributes : List Attribute
deriving DecidableEq, Repr

/-- `Response::new()`. -/
def Response.new : Response := Response.mk [] []

/-- `Response::add_attribute` appends one attribute. -/
def Response.add_attribute (r : Response) (key value : String) : Response :=
  Response.mk r.messages (r.attributes ++ [Attribute.mk key value])

/-- `Response::add_submessage` appends one sub-message. -/
def Response.add_submessage (r : Response) (m : SubMsg) : Response :=
  Response.mk (r.messages ++ [m]) r.attributes

/-- `cosmwasm_std::MessageInfo`. -/
structure MessageInfo where
  sender : String
  funds : List Coin
deriving DecidableEq, Repr

/-- The contract info inside `Env` (`env.contract.address`). -/
structure ContractInfo where
  address : String
deriving DecidableEq, Repr

/-- `cosmwasm_std::Env`; only `contract.address` is read by the contract. -/
structure Env where
  contract : ContractInfo
deriving DecidableEq, Repr

/-- `serde_json` serialization of `SlaveInstantiateMsg` (`to_binary`). -/
def SlaveInstantiateMsg.toBinary (m : SlaveInstantiateMsg) : String :=
  "\x7b\"count\":" ++ toString m.count ++ "\x7d"

/-- `serde_json` serialization of `CountResponse` (`to_binary`). -/
def CountResponse.toBinary (c : CountResponse) : String :=
  "\x7b\"count\":" ++ toString c.count ++ "\x7d"

/-- `contract.rs` line 11. -/
def CONTRACT_NAME : String := "crates.io:test-empty-master"

/-- `contract.rs` line 12: `env!("CARGO_PKG_VERSION")`.  The package version
comes from `Cargo.toml` (not under `src/`); the cw-template default is
"0.1.0".  No claim depends on this value. -/
def CONTRACT_VERSION : String := "0.1.0"

/-- `contract.rs` line 14. -/
def INSTANTIATE_REPLY_ID : Nat := 1

/-- Bounds of `i32`. -/
def I32_MIN : Int := -(2 ^ 31)

/-- Bounds of `i32`. -/
def I32_MAX : Int := 2 ^ 31 - 1

/-- `i32` addition under the release profile's `overflow-checks = true`
(the cw-template build profile): in-range sums are exact, an out-of-range
sum traps (`none`), aborting the invocation instead of wrapping. -/
def i32_checked_add (a b : Int) : Option Int :=
  if I32_MIN ≤ a + b ∧ a + b ≤ I32_MAX then some (a + b) else none

/-- `cw_storage_plus::Item::save` for `STATE`. -/
def STATE_save (storage : Storage) (s : State) : Storage :=
  Storage.mk (some s) storage.contract_info

/-- `cw_storage_plus::Item::load` for `STATE`: fails with a not-found error
when the item is absent. -/
def STATE_load (storage : Storage) : Except StdError State :=
  match storage.state with
  | some s => Except.ok s
  | none => Except.error (StdError.notFound "State")

/-- `cw_storage_plus::Item::update` for `STATE`: load, apply the action,
save the result.  The action itself may fail or trap. -/
def STATE_update (storage : Storage) (action : State → InvocationResult State) :
    InvocationResult (State × Storage) :=
  match STATE_load storage with
  | Except.error e => InvocationResult.err (ContractError.std e)
  | Except.ok s =>
    match action s with
    | InvocationResult.ok s' => InvocationResult.ok (s', STATE_save storage s')
    | InvocationResult.err e => InvocationResult.err e
    | InvocationResult.trap => InvocationResult.trap

/-- `cw2::set_contract_version`: stores the name/version pair. -/
def set_contract_version (storage : Storage) (name version : String) : Storage :=
  Storage.mk storage.state (some (ContractVersion.mk name version))

/-- `contract.rs` lines 17–34: the `instantiate` entry point.  Builds the
initial `State` from the message's `count` and the caller as `owner`,
stores the cw2 version, saves the state, and answers with the three
attributes. -/
def instantiate (storage : Storage) (info : MessageInfo) (msg : InstantiateMsg) :
    InvocationResult (Response × Storage) :=
  let state : State := State.mk msg.count info.sender
  let storage := set_contract_version storage CONTRACT_NAME CONTRACT_VERSION
  let storage := STATE_save storage state
  InvocationResult.ok
    (((Response.new.add_attribute "method" "instantiate").add_attribute
        "owner" info.sender).add_attribute "count" (toString msg.count),
     storage)

/-- `contract.rs` lines 49–56: `try_increment`.  `state.count += 1` on `i32`
traps at `i32::MAX` under the build's overflow checks. -/
def try_increment (storage : Storage) : InvocationResult (Response × Storage) :=
  match STATE_update storage (fun state =>
      match i32_checked_add state.count 1 with
      | some c => InvocationResult.ok (State.mk c state.owner)
      | none => InvocationResult.trap) with
  | InvocationResult.ok (_, storage) =>
      InvocationResult.ok (Response.new.add_attribute "method" "try_increment", storage)
  | InvocationResult.err e => InvocationResult.err e
  | InvocationResult.trap => InvocationResult.trap

/-- `contract.rs` lines 71–87: `deploy_slave`.  Builds the
`WasmMsg::Instantiate` sub-message (admin = own address, code id 9552,
payload = serialized `SlaveInstantiateMsg { count }`, no funds, label
"DeployedSlave"), wrapped with `reply_always` under
`INSTANTIATE_REPLY_ID`.  Storage is untouched. -/
def deploy_slave (storage : Storage) (env : Env) (_info : MessageInfo) (count : Int) :
    InvocationResult (Response × Storage) :=
  let instantiate_message : CosmosMsg :=
    CosmosMsg.wasmInstantiate (some env.contract.address) 9552
      (SlaveInstantiateMsg.toBinary (SlaveInstantiateMsg.mk count)) [] "DeployedSlave"
  let sub_msg : SubMsg := SubMsg.reply_always instantiate_message INSTANTIATE_REPLY_ID
  InvocationResult.ok
    ((Response.new.add_attribute "method" "DeployedSlave").add_submessage sub_msg,
     storage)

/-- `contract.rs` lines 36–47: the `execute` entry point dispatch. -/
def execute (storage : Storage) (env : Env) (info : MessageInfo) (msg : ExecuteMsg) :
    InvocationResult (Response × Storage) :=
  match msg with
  | ExecuteMsg.increment => try_increment storage
  | ExecuteMsg.deploySlave count => deploy_slave storage env info count

/-- `contract.rs` lines 66–69: `query_count`. -/
def query_count (storage : Storage) : Except StdError CountResponse :=
  match STATE_load storage with
  | Except.ok state => Except.ok (CountResponse.mk state.count)
  | Except.error e => Except.error e

/-- `contract.rs` lines 60–64: the `query` entry point. -/
def query (storage : Storage) (msg : QueryMsg) : Except StdError String :=
  match msg with
  | QueryMsg.getCount =>
    match query_count storage with
    | Except.ok c => Except.ok (CountResponse.toBinary c)
    | Except.error e => Except.error e

/-- `contract.rs` lines 98–149: `handle_instantiate_reply`.  On failure,
surface the sub-message error; on success, find the first event typed
"instantiate", then its first attribute keyed "_contract_address", and
answer with the method and contract_address attributes.  The `deps.api.debug`
calls are a pure side channel and carry no state.  Storage is never read
or written. -/
def handle_instantiate_reply (msg : Reply) : Except StdError Response :=
  match msg.result with
  | SubMsgResult.err err =>
      Except.error (StdError.genericErr ("SubMsg error: " ++ err))
  | SubMsgResult.ok result =>
    match result.events.find? (fun event => event.ty == "instantiate") with
    | none => Except.error (StdError.genericErr "Cannot find `instantiate` event")
    | some event =>
      match event.attributes.find? (fun attr => attr.key == "_contract_address") with
      | none =>
          Except.error (StdError.genericErr "Cannot find `_contract_address` attribute")
      | some attr =>
          Except.ok ((Response.new.add_attribute "method"
            "handle_instantiate_reply").add_attribute "contract_address" attr.value)

/-- `contract.rs` lines 89–96: the `reply` entry point.  Routes the
`INSTANTIATE_REPLY_ID` correlation id to `handle_instantiate_reply` and
rejects every other id.  The storage component of a successful result is
the unchanged input storage (the handler takes `deps` only for debug
logging). -/
def reply (storage : Storage) (msg : Reply) : Except StdError (Response × Storage) :=
  if msg.id = INSTANTIATE_REPLY_ID then
    match handle_instantiate_reply msg with
    | Except.ok r => Except.ok (r, storage)
    | Except.error e => Except.error e
  else
    Except.error (StdError.genericErr ("Unknown reply id: " ++ toString msg.id))

/-- The storage after a `reply` invocation: the returned storage on success;
on a typed error the host reverts all state changes of the invocation
(all-or-nothing), so the storage is the input storage. -/
def reply_storage_after (storage : Storage) (msg : Reply) : Storage :=
  match reply storage msg with
  | Except.ok (_, st) => st
  | Except.error _ => storage

/-- The storage after an Increment invocation: the returned storage on
success; on a typed error or a trap the host reverts all state changes of
the invocation, so the storage is the input storage. -/
def try_increment_storage_after (storage : Storage) : Storage :=
  match try_increment storage with
  | InvocationResult.ok (_, st) => st
  | InvocationResult.err _ => storage
  | InvocationResult.trap => storage

/-- Spec name `ChildCreationFailed(message)` for the code's error on a
failed sub-message: `StdError::generic_err(format!("SubMsg error: {}", err))`. -/
def ChildCreationFailed (message : String) : StdError :=
  StdError.genericErr ("SubMsg error: " ++ message)

/-- Spec name `MissingCreationEvent` for the code's error when no
"instantiate" event is present. -/
def MissingCreationEvent : StdError :=
  StdError.genericErr "Cannot find `instantiate` event"

/-- Spec name `MissingAddressAttribute` for the code's error when the
"instantiate" event has no "_contract_address" attribute. -/
def MissingAddressAttribute : StdError :=
  StdError.genericErr "Cannot find `_contract_address` attribute"

/-- Spec name `UnroutableMessage` for the code's error on an unknown reply
id: `StdError::generic_err(format!("Unknown reply id: {}", id))`. -/
def UnroutableMessage (id : Nat) : StdError :=
  StdError.genericErr ("Unknown reply id: " ++ toString id)

end Contract

namespace Contract

/-- `List.find?` returns the head of the first-match decomposition: if every
element before `e` fails the predicate and `e` satisfies it, `find?` yields
`e`. -/
theorem find?_append_cons {α : Type} (p : α → Bool) (pre : List α) (e : α)
    (post : List α) (hpre : ∀ x ∈ pre, p x = false) (he : p e = true) :
    (pre ++ e :: post).find? p = some e := by
  induction pre with
  | nil => simpa using List.find?_cons_of_pos post he
  | cons x xs ih =>
    rw [List.cons_append, List.find?_cons_of_neg _ (by simp [hpre x (by simp)])]
    exact ih (fun y hy => hpre y (by simp [hy]))

theorem i32_checked_add_some (a b c : Int) (h : i32_checked_add a b = some c) :
    c = a + b := by
  unfold i32_checked_add at h
  split at h
  · exact (Option.some.inj h).symm
  · cases h

/-- Characterization of `try_increment` on a storage holding state `s`. -/
theorem try_increment_eq (storage : Storage) (s : State)
    (hs : storage.state = some s) :
    try_increment storage =
      match i32_checked_add s.count 1 with
      | some c =>
          InvocationResult.ok
            (Response.mk [] [Attribute.mk "method" "try_increment"],
             Storage.mk (some (State.mk c s.owner)) storage.contract_info)
      | none => InvocationResult.trap := by
  cases hadd : i32_checked_add s.count 1 with
  | none => simp [try_increment, STATE_update, STATE_load, hs, hadd]
  | some c =>
      simp [try_increment, STATE_update, STATE_load, hs, hadd, STATE_save,
        Response.new, Response.add_attribute]

end Contract

namespace Contract

/-- C1: For every Success outcome whose event list contains an event typed
"instantiate" with a "_contract_address" attribute, the reply correlator
succeeds and returns the value of the first such attribute of the first
such event, unmodified, as the `contract_address` (spec: `child_address`)
response attribute — first match wins for both scans. -/
theorem reply_success_extracts_first_contract_address
    (pre post : List Event) (e : Event) (apre apost : List Attribute)
    (a : Attribute) (data : Option String)
    (hpre : ∀ x ∈ pre, x.ty ≠ "instantiate") (he : e.ty = "instantiate")
    (hattrs : e.attributes = apre ++ a :: apost)
    (hapre : ∀ b ∈ apre, b.key ≠ "_contract_address")
    (ha : a.key = "_contract_address") :
    handle_instantiate_reply
      (Reply.mk INSTANTIATE_REPLY_ID
        (SubMsgResult.ok (SubMsgResponse.mk (pre ++ e :: post) data))) =
      Except.ok
        (Response.mk []
          [Attribute.mk "method" "handle_instantiate_reply",
           Attribute.mk "contract_address" a.value]) := by
  have hfind : (pre ++ e :: post).find? (fun event => event.ty == "instantiate") =
      some e :=
    find?_append_cons _ _ _ _ (fun x hx => by simp [hpre x hx]) (by simp [he])
  have hfind2 : e.attributes.find? (fun attr => attr.key == "_contract_address") =
      some a := by
    rw [hattrs]
    exact find?_append_cons _ _ _ _ (fun b hb => by simp [hapre b hb]) (by simp [ha])
  simp [handle_instantiate_reply, hfind, hfind2, Response.new, Response.add_attribute]

/-- Witness for C1: the concrete `addr123` scenario. -/
theorem reply_success_extracts_first_contract_address_witness :
    handle_instantiate_reply
      (Reply.mk INSTANTIATE_REPLY_ID
        (SubMsgResult.ok (SubMsgResponse.mk
          [Event.mk "instantiate" [Attribute.mk "_contract_address" "addr123"]] none))) =
      Except.ok
        (Response.mk []
          [Attribute.mk "method" "handle_instantiate_reply",
           Attribute.mk "contract_address" "addr123"]) :=
  reply_success_extracts_first_contract_address [] []
    (Event.mk "instantiate" [Attribute.mk "_contract_address" "addr123"])
    [] [] (Attribute.mk "_contract_address" "addr123") none
    (by simp) rfl rfl (by simp) rfl

/-- C2: a Success outcome with no "instantiate"-typed event fails with the
`MissingCreationEvent` error. -/
theorem reply_success_without_instantiate_event_fails
    (events : List Event) (data : Option String)
    (h : ∀ e ∈ events, e.ty ≠ "instantiate") :
    handle_instantiate_reply
      (Reply.mk INSTANTIATE_REPLY_ID
        (SubMsgResult.ok (SubMsgResponse.mk events data))) =
      Except.error MissingCreationEvent := by
  have hfind : events.find? (fun event => event.ty == "instantiate") = none :=
    List.find?_eq_none.mpr (fun x hx => by simp [h x hx])
  simp [handle_instantiate_reply, hfind, MissingCreationEvent]

/-- Witness for C2: a success carrying only a "wasm" event. -/
theorem reply_success_without_instantiate_event_fails_witness :
    handle_instantiate_reply
      (Reply.mk INSTANTIATE_REPLY_ID
        (SubMsgResult.ok (SubMsgResponse.mk
          [Event.mk "wasm" [Attribute.mk "_contract_address" "addr123"]] none))) =
      Except.error MissingCreationEvent :=
  reply_success_without_instantiate_event_fails
    [Event.mk "wasm" [Attribute.mk "_contract_address" "addr123"]] none (by simp)

/-- C3: when the first "instantiate"-typed event has no attribute keyed
"_contract_address", the reply correlator fails with the
`MissingAddressAttribute` error. -/
theorem reply_success_without_address_attribute_fails
    (pre post : List Event) (e : Event) (data : Option String)
    (hpre : ∀ x ∈ pre, x.ty ≠ "instantiate") (he : e.ty = "instantiate")
    (hnone : ∀ b ∈ e.attributes, b.key ≠ "_contract_address") :
    handle_instantiate_reply
      (Reply.mk INSTANTIATE_REPLY_ID
        (SubMsgResult.ok (SubMsgResponse.mk (pre ++ e :: post) data))) =
      Except.error MissingAddressAttribute := by
  have hfind : (pre ++ e :: post).find? (fun event => event.ty == "instantiate") =
      some e :=
    find?_append_cons _ _ _ _ (fun x hx => by simp [hpre x hx]) (by simp [he])
  have hfind2 : e.attributes.find? (fun attr => attr.key == "_contract_address") =
      none :=
    List.find?_eq_none.mpr (fun b hb => by simp [hnone b hb])
  simp [handle_instantiate_reply, hfind, hfind2, MissingAddressAttribute]

/-- Witness for C3: an "instantiate" event carrying only an unrelated
attribute. -/
theorem reply_success_without_address_attribute_fails_witness :
    handle_instantiate_reply
      (Reply.mk INSTANTIATE_REPLY_ID
        (SubMsgResult.ok (SubMsgResponse.mk
          [Event.mk "instantiate" [Attribute.mk "amount" "100"]] none))) =
      Except.error MissingAddressAttribute :=
  reply_success_without_address_attribute_fails [] []
    (Event.mk "instantiate" [Attribute.mk "amount" "100"]) none
    (by simp) rfl (by simp)

end Contract

namespace Contract

/-- C4: a Failure outcome makes the reply entry point fail with
`ChildCreationFailed` carrying the sub-message's error message, and the
persisted record is unchanged by the invocation. -/
theorem reply_failure_child_creation_failed (storage : Storage) (message : String) :
    reply storage (Reply.mk INSTANTIATE_REPLY_ID (SubMsgResult.err message)) =
      Except.error (ChildCreationFailed message) ∧
    reply_storage_after storage
      (Reply.mk INSTANTIATE_REPLY_ID (SubMsgResult.err message)) = storage :=
  ⟨rfl, rfl⟩

/-- C5: `CreateChild` (`DeploySlave`) always succeeds; the response carries
exactly one sub-message, tagged `INSTANTIATE_REPLY_ID`, a
`WasmMsg::Instantiate` with admin = this contract's own address, the fixed
code id 9552, payload = the serialization of `{ count }`, no funds, the
"DeployedSlave" label, `reply_always`; storage is unchanged. -/
theorem execute_deploy_slave_response (storage : Storage) (env : Env)
    (info : MessageInfo) (count : Int) :
    execute storage env info (ExecuteMsg.deploySlave count) =
      InvocationResult.ok
        (Response.mk
          [SubMsg.mk INSTANTIATE_REPLY_ID
            (CosmosMsg.wasmInstantiate (some env.contract.address) 9552
              (SlaveInstantiateMsg.toBinary (SlaveInstantiateMsg.mk count))
              [] "DeployedSlave")
            none ReplyOn.always]
          [Attribute.mk "method" "DeployedSlave"],
         storage) :=
  rfl

/-- C9: a reply whose correlation id differs from `INSTANTIATE_REPLY_ID`
fails with the `UnroutableMessage` error and leaves the persisted record
unchanged. -/
theorem reply_unknown_id_unroutable (storage : Storage) (msg : Reply)
    (h : msg.id ≠ INSTANTIATE_REPLY_ID) :
    reply storage msg = Except.error (UnroutableMessage msg.id) ∧
    reply_storage_after storage msg = storage := by
  refine ⟨?_, ?_⟩
  · simp [reply, h, UnroutableMessage]
  · simp [reply_storage_after, reply, h]

/-- Witness for C9: correlation id 2. -/
theorem reply_unknown_id_unroutable_witness :
    reply (Storage.mk (some (State.mk 3 "owner")) none)
        (Reply.mk 2 (SubMsgResult.err "boom")) =
      Except.error (UnroutableMessage 2) ∧
    reply_storage_after (Storage.mk (some (State.mk 3 "owner")) none)
        (Reply.mk 2 (SubMsgResult.err "boom")) =
      Storage.mk (some (State.mk 3 "owner")) none :=
  reply_unknown_id_unroutable (Storage.mk (some (State.mk 3 "owner")) none)
    (Reply.mk 2 (SubMsgResult.err "boom")) (by decide)

/-- C10: the reply entry point never reads or writes the persisted record:
the storage after any reply invocation equals the storage before it, and
the response component is independent of the storage contents. -/
theorem reply_preserves_storage (st1 st2 : Storage) (msg : Reply) :
    reply_storage_after st1 msg = st1 ∧
    Except.map Prod.fst (reply st1 msg) = Except.map Prod.fst (reply st2 msg) := by
  by_cases h : msg.id = INSTANTIATE_REPLY_ID
  · refine ⟨?_, ?_⟩ <;>
      · simp only [reply_storage_after, reply, h, if_pos]
        cases handle_instantiate_reply msg <;> simp [Except.map]
  · refine ⟨?_, ?_⟩ <;> simp [reply_storage_after, reply, h]

end Contract

namespace Contract

/-- C7: instantiating with seed `n` (any valid `i32`) stores
`State { count = n, owner = caller }` and a subsequent `GetCount` returns
`n`. -/
theorem instantiate_then_get_count (storage : Storage) (info : MessageInfo)
    (n : Int) (hn : I32_MIN ≤ n ∧ n ≤ I32_MAX) :
    ∃ r st', instantiate storage info (InstantiateMsg.mk n) =
        InvocationResult.ok (r, st') ∧
      query_count st' = Except.ok (CountResponse.mk n) ∧
      st'.state = some (State.mk n info.sender) :=
  ⟨_, _, rfl, rfl, rfl⟩

/-- Witness for C7: seed 17, caller "creator". -/
theorem instantiate_then_get_count_witness :
    ∃ r st', instantiate (Storage.mk none none) (MessageInfo.mk "creator" [])
        (InstantiateMsg.mk 17) = InvocationResult.ok (r, st') ∧
      query_count st' = Except.ok (CountResponse.mk 17) ∧
      st'.state = some (State.mk 17 "creator") :=
  instantiate_then_get_count (Storage.mk none none) (MessageInfo.mk "creator" [])
    17 (by decide)

/-- Counterexample to C6 as stated: the state with counter `i32::MAX` is
reachable (directly producible by `instantiate`), and there Increment does
not return the previous value plus one — the addition overflows, the
invocation traps, and `GetCount` afterwards still returns `i32::MAX`. -/
theorem increment_at_i32_max_counterexample :
    instantiate (Storage.mk none none) (MessageInfo.mk "creator" [])
        (InstantiateMsg.mk I32_MAX) =
      InvocationResult.ok
        (((Response.new.add_attribute "method" "instantiate").add_attribute
            "owner" "creator").add_attribute "count" (toString I32_MAX),
         Storage.mk (some (State.mk I32_MAX "creator"))
           (some (ContractVersion.mk CONTRACT_NAME CONTRACT_VERSION))) ∧
    try_increment
        (Storage.mk (some (State.mk I32_MAX "creator"))
          (some (ContractVersion.mk CONTRACT_NAME CONTRACT_VERSION))) =
      InvocationResult.trap ∧
    query_count (try_increment_storage_after
        (Storage.mk (some (State.mk I32_MAX "creator"))
          (some (ContractVersion.mk CONTRACT_NAME CONTRACT_VERSION)))) =
      Except.ok (CountResponse.mk I32_MAX) ∧
    (I32_MAX : Int) ≠ I32_MAX + 1 :=
  ⟨rfl, rfl, rfl, by decide⟩

/-- C6 amended: for every reachable state whose counter is a valid `i32`
strictly below `i32::MAX`, Increment succeeds and a subsequent `GetCount`
returns the previous counter value plus one. -/
theorem increment_then_get_count (storage : Storage) (s : State)
    (hs : storage.state = some s) (hge : I32_MIN ≤ s.count)
    (hlt : s.count < I32_MAX) :
    ∃ st', try_increment storage =
        InvocationResult.ok
          (Response.mk [] [Attribute.mk "method" "try_increment"], st') ∧
      query_count st' = Except.ok (CountResponse.mk (s.count + 1)) := by
  have hadd : i32_checked_add s.count 1 = some (s.count + 1) := by
    simp only [i32_checked_add, I32_MIN, I32_MAX] at *
    rw [if_pos ⟨by omega, by omega⟩]
  refine ⟨Storage.mk (some (State.mk (s.count + 1) s.owner)) storage.contract_info,
    ?_, ?_⟩
  · rw [try_increment_eq storage s hs, hadd]
  · simp [query_count, STATE_load]

/-- Witness for C6 (amended): the spec's concrete scenario — init with 17,
then Increment, then GetCount yields 18. -/
theorem increment_then_get_count_witness :
    ∃ st', try_increment
        (Storage.mk (some (State.mk 17 "creator"))
          (some (ContractVersion.mk CONTRACT_NAME CONTRACT_VERSION))) =
        InvocationResult.ok
          (Response.mk [] [Attribute.mk "method" "try_increment"], st') ∧
      query_count st' = Except.ok (CountResponse.mk 18) :=
  increment_then_get_count
    (Storage.mk (some (State.mk 17 "creator"))
      (some (ContractVersion.mk CONTRACT_NAME CONTRACT_VERSION)))
    (State.mk 17 "creator") rfl (by decide) (by decide)

/-- C8: the counter is monotonically non-decreasing under Increment: a
successful Increment takes the counter from `c` to `c + 1 ≥ c`, and at
`i32::MAX` the Increment invocation traps with the storage reverted, so
the counter never decreases — not even at the maximum `i32`. -/
theorem counter_monotone_under_increment :
    (∀ (storage : Storage) (r : Response) (st' : Storage) (s s' : State),
      try_increment storage = InvocationResult.ok (r, st') →
      storage.state = some s → st'.state = some s' → s.count ≤ s'.count) ∧
    (∀ (storage : Storage) (s : State), storage.state = some s →
      s.count = I32_MAX →
      try_increment storage = InvocationResult.trap ∧
      try_increment_storage_after storage = storage) := by
  constructor
  · intro storage r st' s s' h hs hs'
    rw [try_increment_eq storage s hs] at h
    cases hadd : i32_checked_add s.count 1 with
    | none => rw [hadd] at h; cases h
    | some c =>
      rw [hadd] at h
      have hc : c = s.count + 1 := i32_checked_add_some s.count 1 c hadd
      cases h
      have hs'' : State.mk c s.owner = s' := by simpa using hs'
      rw [← hs'']
      show s.count ≤ c
      omega
  · intro storage s hs hmax
    have hadd : i32_checked_add s.count 1 = none := by
      rw [hmax]; decide
    have htrap : try_increment storage = InvocationResult.trap := by
      rw [try_increment_eq storage s hs, hadd]
    exact ⟨htrap, by simp [try_increment_storage_after, htrap]⟩

end Contract

namespace Contract

/-- Witness for C8: a successful Increment at 5, and the trap with storage
reverted at `i32::MAX`. -/
theorem counter_monotone_under_increment_witness :
    (5 : Int) ≤ 6 ∧
    (try_increment (Storage.mk (some (State.mk I32_MAX "alice")) none) =
        InvocationResult.trap ∧
      try_increment_storage_after (Storage.mk (some (State.mk I32_MAX "alice")) none) =
        Storage.mk (some (State.mk I32_MAX "alice")) none) :=
  ⟨counter_monotone_under_increment.1
      (Storage.mk (some (State.mk 5 "alice")) none)
      (Response.mk [] [Attribute.mk "method" "try_increment"])
      (Storage.mk (some (State.mk 6 "alice")) none)
      (State.mk 5 "alice") (State.mk 6 "alice") rfl rfl rfl,
   counter_monotone_under_increment.2
      (Storage.mk (some (State.mk I32_MAX "alice")) none)
      (State.mk I32_MAX "alice") rfl rfl⟩

end Contract
